import Mathlib

/-!
Verification of the LED-controller firmware dispatcher (`src/main.cpp`).

The firmware is a line-oriented JSON command dispatcher: serial bytes are
accumulated into lines, each line is decoded as a JSON object, routed by its
`action` field to one of five handlers (rgb / led / relay / read / config),
which validate parameters, perform hardware driver calls and emit a JSON
response.  Everything below is a shallow embedding of that dispatcher:

* decoded JSON command objects become a record of optional fields (`Doc`),
  mirroring ArduinoJson's `doc["k"] | default` access;
* hardware driver calls become an explicit event trace (`HwEvent`), and the
  driver-owned state (pixel buffers, LED output, relays) is the fold of that
  trace (`applyEvents`);
* the single dispatcher-owned variable `lbThreshold` is threaded explicitly;
* sensor reads take their raw values from an oracle record (`SensorEnv`);
* the LM75 bus transaction outcome is an explicit datatype (`Lm75Bus`), with
  the NaN sentinel of `readLm75Temperature` embedded as `Option.none`.
-/

namespace D1Lite

/-- A JSON value appearing in a response object.  The firmware only ever
emits strings, integers, and one float (the temperature), which is embedded
as a rational: every value the decode can produce (a 9-bit two's-complement
count of 0.5 °C steps) is exactly representable. -/
inductive JVal
  | s (v : String)
  | i (v : Int)
  | q (v : ℚ)
deriving DecidableEq, Repr

/-- A serialized JSON response object: the key/value pairs in the order the
firmware inserts them into the `JsonDocument`. -/
abbrev JObj := List (String × JVal)

/-- `sendSuccess` from main.cpp: `{"status":"success","message":...}`. -/
def sendSuccess (message : String) : JObj :=
  [("status", .s "success"), ("message", .s message)]

/-- `sendError` from main.cpp: `{"status":"error","message":...}`. -/
def sendError (message : String) : JObj :=
  [("status", .s "error"), ("message", .s message)]

/-- A decoded JSON command object.  Each field of the incoming object that
the firmware ever reads is modelled as `Option`: `none` for an absent field.
ArduinoJson's `doc["k"] | default` idiom becomes `Option.getD`; the field
`end` is a Lean keyword, so it is named `endIdx` here (it models the JSON
key `"end"`). -/
structure Doc where
  action  : Option String := none
  strip   : Option Int    := none
  mode    : Option String := none
  pixel   : Option Int    := none
  r       : Option Int    := none
  g       : Option Int    := none
  b       : Option Int    := none
  start   : Option Int    := none
  endIdx  : Option Int    := none
  state   : Option Bool   := none
  value   : Option Int    := none
  sensor  : Option String := none
  relay   : Option Int    := none
  setting : Option String := none
deriving DecidableEq, Repr

/-- `NUM_LEDS_RGB_1` from main.cpp. -/
def NUM_LEDS_RGB_1 : Int := 78

/-- `NUM_LEDS_RGB_2` from main.cpp. -/
def NUM_LEDS_RGB_2 : Int := 78

/-- `Adafruit_NeoPixel::Color(r,g,b)`: packs three 8-bit components into one
word; the `uint8_t` parameters truncate each `int` argument mod 256
(`Int.emod`, so the result is in `[0,255]` also for negative inputs). -/
def Color (r g b : Int) : Nat :=
  (r % 256).toNat * 65536 + (g % 256).toNat * 256 + (b % 256).toNat

/-- One hardware driver call made by a handler, in program order. -/
inductive HwEvent
  | setPixelColor (strip : Nat) (idx : Int) (c : Nat)
  | showStrip (strip : Nat)
  | clearStrip (strip : Nat)
  | digitalWriteLed (high : Bool)
  | analogWriteLed (v : Int)
  | digitalWriteRelay (n : Nat) (high : Bool)
deriving DecidableEq, Repr

/-- The latched state of the single LED output pin: last driven digitally or
by PWM. -/
inductive LedOut
  | digital (high : Bool)
  | pwm (v : Int)
deriving DecidableEq, Repr

/-- Driver-owned device state: the two NeoPixel pixel buffers (pixel index →
packed color), the LED output and the two relay outputs. -/
structure Strips where
  strip1 : Int → Nat
  strip2 : Int → Nat
  led    : LedOut
  relay1 : Bool
  relay2 : Bool

/-- Pixel buffer of strip `sid` (1 = `rgb1`, 2 = `rgb2`). -/
def Strips.pix (st : Strips) (sid : Nat) : Int → Nat :=
  if sid = 1 then st.strip1 else st.strip2

/-- Effect of a single driver call on the device state. -/
def applyEvent (st : Strips) : HwEvent → Strips
  | .setPixelColor 1 i c =>
      { st with strip1 := fun j => if j = i then c else st.strip1 j }
  | .setPixelColor 2 i c =>
      { st with strip2 := fun j => if j = i then c else st.strip2 j }
  | .setPixelColor _ _ _ => st
  | .showStrip _ => st
  | .clearStrip 1 => { st with strip1 := fun _ => 0 }
  | .clearStrip 2 => { st with strip2 := fun _ => 0 }
  | .clearStrip _ => st
  | .digitalWriteLed h => { st with led := .digital h }
  | .analogWriteLed v => { st with led := .pwm v }
  | .digitalWriteRelay 1 h => { st with relay1 := h }
  | .digitalWriteRelay 2 h => { st with relay2 := h }
  | .digitalWriteRelay _ _ => st

/-- Effect of a trace of driver calls, first to last. -/
def applyEvents (st : Strips) (l : List HwEvent) : Strips :=
  l.foldl applyEvent st

/-- The counted pixel-write loop `for (int i = start; ...; i++)` run for `n`
iterations: the driver calls it performs, in order. -/
def rangeWrites (sid : Nat) (start : Int) (c : Nat) : Nat → List HwEvent
  | 0 => []
  | n + 1 => .setPixelColor sid start c :: rangeWrites sid (start + 1) c n

/-- The writes of `for (int i = start; i <= e; i++) setPixelColor(i, c)`:
`(e + 1 - start).toNat` iterations starting at `start`. -/
def rangeEvents (sid : Nat) (start e : Int) (c : Nat) : List HwEvent :=
  rangeWrites sid start c (e + 1 - start).toNat

/-!  ## LM75 temperature decode  -/

/-- Outcome of the LM75 2-byte register read transaction:
`endTransmission(false)` not returning 0 (`writeNack`), `requestFrom`
returning fewer than 2 bytes (`shortRead`), or a successful read yielding
the two register bytes. -/
inductive Lm75Bus
  | writeNack
  | shortRead (n : Nat)
  | ok (msb lsb : Nat)
deriving DecidableEq, Repr

/-- Two's-complement reinterpretation of a value stored into an `int16_t`:
the C conversion wraps mod 2^16 and reads the result as signed. -/
def toSigned16 (w : Nat) : Int :=
  if w % 65536 < 32768 then ((w % 65536 : Nat) : Int)
  else ((w % 65536 : Nat) : Int) - 65536

/-- `readLm75Temperature` from main.cpp.  A failed write or a short read
returns the NaN sentinel, embedded as `none`.  On success:
`int16_t raw = ((int16_t)msb << 8) | lsb` (the `uint8_t` reads are mod 256,
the assignment wraps into `int16_t`), then `raw >>= 7` — a C arithmetic
right shift of a signed value, i.e. floor division by 128, which is Lean's
`Int` division (`Int.ediv`) for this positive divisor — then `raw * 0.5f`,
exact for all 9-bit values, embedded as multiplication by `1/2` in `ℚ`. -/
def readLm75Temperature : Lm75Bus → Option ℚ
  | .writeNack => none
  | .shortRead _ => none
  | .ok msb lsb =>
      let raw : Int := toSigned16 ((msb % 256) * 256 + lsb % 256)
      let raw7 : Int := raw / 128
      some ((raw7 : ℚ) * (1 / 2))

/-- The spec's description of the decode, written independently of the code:
take the top 9 bits of the big-endian 16-bit register value (shift right by
7), interpret them as a 9-bit two's-complement quantity, and multiply by
0.5 °C. -/
def specLm75Celsius (msb lsb : Nat) : ℚ :=
  let nine : Nat := ((msb % 256) * 256 + lsb % 256) / 128
  let signed : Int := if nine < 256 then (nine : Nat) else ((nine : Nat) : Int) - 512
  (signed : ℚ) * (1 / 2)

/-!  ## Line accumulator (`loop` in main.cpp)  -/

/-- The two globals owned by the line accumulator: `inputBuffer` and
`inputComplete`. -/
structure LineState where
  inputBuffer   : String
  inputComplete : Bool
deriving DecidableEq, Repr

/-- Body of the serial read loop for one incoming byte: CR or LF sets
`inputComplete`; printable ASCII (32–126) is appended to `inputBuffer`;
anything else is dropped.  (Bytes ≥ 128 read into a `char` fail the
`32 ≤ c ∧ c ≤ 126` test under either char signedness, so modelling the byte
by its code point is faithful.) -/
def readSerialChar (st : LineState) (c : Char) : LineState :=
  if c = '\n' ∨ c = '\r' then { st with inputComplete := true }
  else if 32 ≤ c.toNat ∧ c.toNat ≤ 126 then
    { st with inputBuffer := st.inputBuffer.push c }
  else st

/-- One iteration of `loop()` given the bytes pending on the serial port at
its start.  Phase 1 (`while (Serial.available())`) consumes every pending
byte through `readSerialChar` — note it does not stop at a terminator.
Phase 2: if `inputComplete` is set, the flush loop runs (it consumes
nothing: phase 1 already drained the pending bytes), `processCommand` is
invoked with `inputBuffer` (returned here as `some text`), and the buffer
and flag are reset. -/
def loopTick (pending : List Char) (st : LineState) : LineState × Option String :=
  let st1 := pending.foldl readSerialChar st
  if st1.inputComplete then
    ({ inputBuffer := "", inputComplete := false }, some st1.inputBuffer)
  else (st1, none)

/-!  ## Command handlers  -/

/-- `handleRgbCommand` from main.cpp, as the driver-call trace it performs
and the response it emits.  `numPixels()` of the chosen strip object is its
configured length (78 for both). -/
def handleRgbCommand (doc : Doc) : List HwEvent × JObj :=
  let strip := doc.strip.getD 0
  let mode := doc.mode.getD "single"
  if strip ≠ 1 ∧ strip ≠ 2 then
    ([], sendError "Invalid strip number. Use 1 or 2")
  else
    let sid : Nat := if strip = 1 then 1 else 2
    let numPixels : Int := if strip = 1 then NUM_LEDS_RGB_1 else NUM_LEDS_RGB_2
    if mode = "single" then
      let pixel := doc.pixel.getD 0
      let r := doc.r.getD 0
      let g := doc.g.getD 0
      let b := doc.b.getD 0
      if pixel ≥ 0 ∧ pixel < numPixels then
        ([.setPixelColor sid pixel (Color r g b), .showStrip sid],
         sendSuccess ("Pixel " ++ toString pixel ++ " on strip " ++ toString strip ++
           " set to RGB(" ++ toString r ++ "," ++ toString g ++ "," ++ toString b ++ ")"))
      else
        ([], sendError ("Invalid pixel number. Range: 0-" ++ toString (numPixels - 1)))
    else if mode = "range" then
      let start := doc.start.getD 0
      let e := doc.endIdx.getD (numPixels - 1)
      let r := doc.r.getD 0
      let g := doc.g.getD 0
      let b := doc.b.getD 0
      if start ≥ 0 ∧ e < numPixels ∧ start ≤ e then
        (rangeEvents sid start e (Color r g b) ++ [.showStrip sid],
         sendSuccess ("Pixels " ++ toString start ++ "-" ++ toString e ++ " on strip " ++
           toString strip ++ " set to RGB(" ++ toString r ++ "," ++ toString g ++ "," ++
           toString b ++ ")"))
      else
        ([], sendError "Invalid pixel range")
    else if mode = "all" then
      let r := doc.r.getD 0
      let g := doc.g.getD 0
      let b := doc.b.getD 0
      (rangeWrites sid 0 (Color r g b) numPixels.toNat ++ [.showStrip sid],
       sendSuccess ("All pixels on strip " ++ toString strip ++ " set to RGB(" ++
         toString r ++ "," ++ toString g ++ "," ++ toString b ++ ")"))
    else if mode = "clear" then
      ([.clearStrip sid, .showStrip sid],
       sendSuccess ("Strip " ++ toString strip ++ " cleared"))
    else
      ([], sendError "Invalid mode. Use: single, range, all, clear")

/-- `handleLedCommand` from main.cpp. -/
def handleLedCommand (doc : Doc) : List HwEvent × JObj :=
  let mode := doc.mode.getD "digital"
  if mode = "digital" then
    let state := doc.state.getD false
    ([.digitalWriteLed state],
     sendSuccess ("LED set to " ++ (if state then "ON" else "OFF")))
  else if mode = "analog" then
    let value := doc.value.getD 0
    if value ≥ 0 ∧ value ≤ 255 then
      ([.analogWriteLed value],
       sendSuccess ("LED analog value set to " ++ toString value))
    else
      ([], sendError "Invalid analog value. Range: 0-255")
  else
    ([], sendError "Invalid LED mode. Use: digital, analog")

/-- `handleRelayCommand` from main.cpp. -/
def handleRelayCommand (doc : Doc) : List HwEvent × JObj :=
  let relay := doc.relay.getD 0
  let state := doc.state.getD false
  if relay = 1 then
    ([.digitalWriteRelay 1 state],
     sendSuccess ("Relay 1 set to " ++ (if state then "ON" else "OFF")))
  else if relay = 2 then
    ([.digitalWriteRelay 2 state],
     sendSuccess ("Relay 2 set to " ++ (if state then "ON" else "OFF")))
  else
    ([], sendError "Invalid relay number. Use 1 or 2")

/-- Oracle record for one command's sensor reads and the LM75 bus: the raw
`analogRead(LB)` value, the `digitalRead(RS)` state, whether the LM75
acknowledges its address probe (`lm75Available`), and the outcome of the
2-byte register read. -/
structure SensorEnv where
  lbRaw : Int := 0
  rsHigh : Bool := false
  lm75Present : Bool := false
  lm75 : Lm75Bus := .writeNack
deriving Repr

/-- `handleReadCommand` from main.cpp.  Sensor reads have no hardware side
effect, so the result is just the emitted response object. -/
def handleReadCommand (doc : Doc) (env : SensorEnv) (lbThreshold : Int) : JObj :=
  let sensor := doc.sensor.getD ""
  if sensor = "temp" then
    if env.lm75Present = false then
      sendError "LM75 not responding at 0x48"
    else
      match readLm75Temperature env.lm75 with
      | none => sendError "LM75 read error"
      | some t =>
          [("status", .s "success"), ("sensor", .s "temp"), ("celsius", .q t),
           ("resolution", .s "0.5"), ("address", .s "0x48")]
  else if sensor = "lb" then
    let mode := doc.mode.getD "analog"
    if mode = "analog" then
      [("status", .s "success"), ("sensor", .s "lb"), ("mode", .s "analog"),
       ("value", .i env.lbRaw), ("range", .s "0-1023")]
    else if mode = "digital" then
      let value := env.lbRaw
      let digital : Bool := value > lbThreshold
      [("status", .s "success"), ("sensor", .s "lb"), ("mode", .s "digital"),
       ("value", .i (if digital then 1 else 0)), ("threshold", .i lbThreshold),
       ("raw_value", .i value)]
    else
      sendError "Invalid LB mode. Use: analog, digital"
  else if sensor = "rs" then
    [("status", .s "success"), ("sensor", .s "rs"),
     ("value", .i (if env.rsHigh then 1 else 0))]
  else
    sendError "Invalid sensor. Use: lb, rs"

/-- `handleConfigCommand` from main.cpp: returns the (possibly updated)
`lbThreshold` and the response. -/
def handleConfigCommand (doc : Doc) (lbThreshold : Int) : Int × JObj :=
  let setting := doc.setting.getD ""
  if setting = "lb_threshold" then
    let threshold := doc.value.getD lbThreshold
    if threshold ≥ 0 ∧ threshold ≤ 1023 then
      (threshold, sendSuccess ("LB threshold set to " ++ toString threshold))
    else
      (lbThreshold, sendError "Invalid threshold value. Range: 0-1023")
  else
    (lbThreshold, sendError "Invalid setting. Available: lb_threshold")

/-!  ## Router (`processCommand` in main.cpp)  -/

/-- A trimmed command line after the checks `processCommand` performs before
routing: the literal `help` (case-insensitive), a string that fails JSON
decoding, or a decoded JSON object. -/
inductive Input
  | help
  | badJson
  | doc (d : Doc)

/-- What one command writes back to the serial port: a JSON object or the
multi-line help text (whose contents no claim concerns). -/
inductive Output
  | json (o : JObj)
  | helpText

/-- `processCommand` from main.cpp, after line trimming and JSON decoding
have been abstracted into `Input`.  `String action = doc["action"]` is
modelled per the spec's collaborator contract for the JSON library (§4.2):
an absent field reads as the empty string.  Result: the `lbThreshold` after
the command, the hardware calls performed, and the output emitted. -/
def processCommand (inp : Input) (env : SensorEnv) (lbThreshold : Int) :
    Int × List HwEvent × Output :=
  match inp with
  | .help => (lbThreshold, [], .helpText)
  | .badJson => (lbThreshold, [], .json (sendError "Invalid JSON format"))
  | .doc d =>
      let action := d.action.getD ""
      if action = "rgb" then
        let res := handleRgbCommand d
        (lbThreshold, res.1, .json res.2)
      else if action = "led" then
        let res := handleLedCommand d
        (lbThreshold, res.1, .json res.2)
      else if action = "relay" then
        let res := handleRelayCommand d
        (lbThreshold, res.1, .json res.2)
      else if action = "read" then
        (lbThreshold, [], .json (handleReadCommand d env lbThreshold))
      else if action = "config" then
        let res := handleConfigCommand d lbThreshold
        (res.1, [], .json res.2)
      else
        (lbThreshold, [], .json (sendError ("Unknown action: " ++ action)))

/-- The `lbThreshold` after running a sequence of commands (each with its
sensor oracle) starting from threshold `t`. -/
def runThreshold (l : List (Input × SensorEnv)) (t : Int) : Int :=
  l.foldl (fun t p => (processCommand p.1 p.2 t).1) t

/-- Whether a command routes to the configuration handler (the only handler
that can change `lbThreshold`). -/
def isConfigInput : Input → Bool
  | .doc d => d.action.getD "" == "config"
  | _ => false

/-- `lbThreshold` values the process can hold: 512 at boot (the
initializer of the global), closed under processing any command. -/
inductive ReachableThreshold : Int → Prop
  | boot : ReachableThreshold 512
  | step (inp : Input) (env : SensorEnv) {t : Int} :
      ReachableThreshold t → ReachableThreshold (processCommand inp env t).1

/-!  ## Helper lemmas  -/

theorem applyEvents_append (st : Strips) (l₁ l₂ : List HwEvent) :
    applyEvents st (l₁ ++ l₂) = applyEvents (applyEvents st l₁) l₂ := by
  simp [applyEvents, List.foldl_append]

theorem applyEvent_showStrip (st : Strips) (k : Nat) :
    applyEvent st (.showStrip k) = st := rfl

theorem applyEvents_snoc_showStrip (st : Strips) (l : List HwEvent) (k : Nat) :
    applyEvents st (l ++ [.showStrip k]) = applyEvents st l := by
  rw [applyEvents_append]
  rfl

theorem pix_applyEvent_setPixelColor (st : Strips) {sid sid' : Nat}
    (hs : sid = 1 ∨ sid = 2) (hs' : sid' = 1 ∨ sid' = 2) (i : Int) (c : Nat) (j : Int) :
    (applyEvent st (.setPixelColor sid i c)).pix sid' j =
      if sid' = sid ∧ j = i then c else st.pix sid' j := by
  rcases hs with rfl | rfl <;> rcases hs' with rfl | rfl <;>
    simp only [applyEvent, Strips.pix] <;> split_ifs <;> simp_all

theorem pix_rangeWrites (c : Nat) {sid sid' : Nat}
    (hs : sid = 1 ∨ sid = 2) (hs' : sid' = 1 ∨ sid' = 2) :
    ∀ (n : Nat) (start : Int) (st : Strips) (j : Int),
      (applyEvents st (rangeWrites sid start c n)).pix sid' j =
        if sid' = sid ∧ start ≤ j ∧ j < start + n then c else st.pix sid' j := by
  intro n
  induction n with
  | zero =>
      intro start st j
      rw [if_neg]
      · rfl
      · rintro ⟨-, h2, h3⟩
        omega
  | succ n ih =>
      intro start st j
      have hcons : applyEvents st (rangeWrites sid start c (n + 1)) =
          applyEvents (applyEvent st (.setPixelColor sid start c))
            (rangeWrites sid (start + 1) c n) := rfl
      rw [hcons, ih (start + 1), pix_applyEvent_setPixelColor st hs hs' start c j]
      split_ifs <;> first | rfl | omega

theorem pix_rangeEvents {sid sid' : Nat}
    (hs : sid = 1 ∨ sid = 2) (hs' : sid' = 1 ∨ sid' = 2)
    (start e : Int) (c : Nat) (st : Strips) (j : Int) :
    (applyEvents st (rangeEvents sid start e c)).pix sid' j =
      if sid' = sid ∧ start ≤ j ∧ j ≤ e then c else st.pix sid' j := by
  rw [rangeEvents, pix_rangeWrites c hs hs']
  have hiff : (sid' = sid ∧ start ≤ j ∧ j < start + ((e + 1 - start).toNat : Int)) ↔
      (sid' = sid ∧ start ≤ j ∧ j ≤ e) := by
    constructor <;> rintro ⟨h1, h2, h3⟩ <;> exact ⟨h1, by omega, by omega⟩
  simp only [hiff]

theorem toSigned16_ediv_128 (m : Nat) (hm : m < 65536) :
    toSigned16 m / 128 =
      if m / 128 < 256 then ((m / 128 : Nat) : Int) else ((m / 128 : Nat) : Int) - 512 := by
  unfold toSigned16
  split_ifs <;> omega

theorem processCommand_fst_of_not_config (inp : Input) (env : SensorEnv) (t : Int)
    (h : isConfigInput inp = false) : (processCommand inp env t).1 = t := by
  cases inp with
  | help => rfl
  | badJson => rfl
  | doc d =>
      simp only [isConfigInput, beq_eq_false_iff_ne, ne_eq] at h
      simp only [processCommand]
      split_ifs <;> rfl

theorem runThreshold_eq_of_not_config (l : List (Input × SensorEnv)) (t : Int)
    (h : ∀ p ∈ l, isConfigInput p.1 = false) : runThreshold l t = t := by
  induction l generalizing t with
  | nil => rfl
  | cons p l ih =>
      have hstep : (processCommand p.1 p.2 t).1 = t :=
        processCommand_fst_of_not_config p.1 p.2 t (h p (List.mem_cons_self p l))
      have : runThreshold (p :: l) t = runThreshold l (processCommand p.1 p.2 t).1 := rfl
      rw [this, hstep]
      exact ih t (fun q hq => h q (List.mem_cons_of_mem p hq))

theorem processCommand_fst_bounds (inp : Input) (env : SensorEnv) (t : Int)
    (h : 0 ≤ t ∧ t ≤ 1023) :
    0 ≤ (processCommand inp env t).1 ∧ (processCommand inp env t).1 ≤ 1023 := by
  cases inp with
  | help => exact h
  | badJson => exact h
  | doc d =>
      simp only [processCommand]
      split_ifs with h1 h2 h3 h4 h5
      · exact h
      · exact h
      · exact h
      · exact h
      · simp only [handleConfigCommand]
        split_ifs with h6 h7
        · exact ⟨by omega, by omega⟩
        · exact h
        · exact h
      · exact h

theorem reachableThreshold_bounds (t : Int) (h : ReachableThreshold t) :
    0 ≤ t ∧ t ≤ 1023 := by
  induction h with
  | boot => exact ⟨by norm_num, by norm_num⟩
  | step inp env _ ih => exact processCommand_fst_bounds inp env _ ih

/-!  ## Claim theorems  -/

/-- C2 (code bug, evaluation at the failing input): with an empty buffer and
the bytes `'a'`, `'\n'`, `'b'` pending in the same tick, `loop()` invokes the
dispatcher with `"ab"` — the printable byte arriving after the terminator is
appended to the buffer before `inputComplete` is checked, so it becomes part
of the command that is processed instead of being discarded by the flush
loop (which runs only after the read loop has already drained everything). -/
theorem c2_loop_post_terminator_bytes :
    loopTick ['a', '\n', 'b'] { inputBuffer := "", inputComplete := false } =
      ({ inputBuffer := "", inputComplete := false }, some "ab") := by
  decide

/-- C3: a successful 2-byte LM75 read decodes exactly as the spec's formula
(take the top 9 bits of the big-endian 16-bit register value as a 9-bit
two's-complement quantity — also for negative raw values — and multiply by
0.5 °C), and a not-acknowledged write or a short read yields the NaN
sentinel (`none`) instead. -/
theorem c3_lm75_temperature_decode :
    (∀ msb lsb : Nat, readLm75Temperature (.ok msb lsb) = some (specLm75Celsius msb lsb)) ∧
    readLm75Temperature .writeNack = none ∧
    (∀ n : Nat, readLm75Temperature (.shortRead n) = none) := by
  refine ⟨?_, rfl, fun n => rfl⟩
  intro msb lsb
  have hm : (msb % 256) * 256 + lsb % 256 < 65536 := by
    have h1 : msb % 256 < 256 := Nat.mod_lt msb (by norm_num)
    have h2 : lsb % 256 < 256 := Nat.mod_lt lsb (by norm_num)
    omega
  simp only [readLm75Temperature, specLm75Celsius]
  rw [toSigned16_ediv_128 _ hm]

/-- C5: a config command with setting `lb_threshold` and a supplied value in
0–1023 sets the process-wide threshold to that value and reports it; an
out-of-range value leaves the threshold unchanged and emits the range error;
any other setting (including the absent default) leaves the threshold
unchanged and emits the error listing the available settings. -/
theorem c5_config_lb_threshold :
    (∀ (d : Doc) (t v : Int), d.setting = some "lb_threshold" → d.value = some v →
       (v ≥ 0 ∧ v ≤ 1023 →
          handleConfigCommand d t = (v, sendSuccess ("LB threshold set to " ++ toString v))) ∧
       (¬(v ≥ 0 ∧ v ≤ 1023) →
          handleConfigCommand d t =
            (t, sendError "Invalid threshold value. Range: 0-1023"))) ∧
    (∀ (d : Doc) (t : Int), d.setting.getD "" ≠ "lb_threshold" →
       handleConfigCommand d t = (t, sendError "Invalid setting. Available: lb_threshold")) := by
  constructor
  · intro d t v hset hval
    constructor
    · intro hin
      simp only [handleConfigCommand, hset, hval, Option.getD]
      rw [if_pos trivial, if_pos hin]
    · intro hout
      simp only [handleConfigCommand, hset, hval, Option.getD]
      rw [if_pos trivial, if_neg hout]
  · intro d t hne
    simp only [handleConfigCommand]
    rw [if_neg hne]

/-- C6: an rgb command whose strip field (default 0) is neither 1 nor 2 is
answered with exactly the error `Invalid strip number. Use 1 or 2`, performs
no hardware call (so neither strip's pixels change), and this happens before
any mode processing — the result is this error whatever the mode field is. -/
theorem c6_rgb_invalid_strip (d : Doc)
    (h1 : d.strip.getD 0 ≠ 1) (h2 : d.strip.getD 0 ≠ 2) :
    handleRgbCommand d = ([], sendError "Invalid strip number. Use 1 or 2") ∧
    ∀ st : Strips, applyEvents st (handleRgbCommand d).1 = st := by
  have hcmd : handleRgbCommand d = ([], sendError "Invalid strip number. Use 1 or 2") := by
    simp only [handleRgbCommand]
    rw [if_pos ⟨h1, h2⟩]
  exact ⟨hcmd, fun st => by rw [hcmd]; rfl⟩

/-- C6 witness: strip defaults to 0 when absent, which is rejected with no
hardware call. -/
theorem c6_rgb_invalid_strip_witness :
    handleRgbCommand { mode := some "all" } =
      ([], sendError "Invalid strip number. Use 1 or 2") :=
  (c6_rgb_invalid_strip { mode := some "all" } (by decide) (by decide)).1

/-- C7: a led command with mode `analog` and value (default 0) in 0–255
drives the PWM duty to that value and echoes it in the success message; an
out-of-range value yields the range error with no PWM write (no hardware
call at all). -/
theorem c7_led_analog (d : Doc) (v : Int)
    (hm : d.mode = some "analog") (hv : v = d.value.getD 0) :
    (v ≥ 0 ∧ v ≤ 255 →
       handleLedCommand d =
         ([.analogWriteLed v], sendSuccess ("LED analog value set to " ++ toString v))) ∧
    (¬(v ≥ 0 ∧ v ≤ 255) →
       handleLedCommand d = ([], sendError "Invalid analog value. Range: 0-255")) := by
  subst hv
  constructor
  · intro hin
    simp [handleLedCommand, hm, hin]
  · intro hout
    simp [handleLedCommand, hm, hout]

/-- C7 witness: the boundary value 255 succeeds and is echoed. -/
theorem c7_led_analog_witness :
    handleLedCommand { mode := some "analog", value := some 255 } =
      ([.analogWriteLed 255],
       sendSuccess ("LED analog value set to " ++ toString (255 : Int))) :=
  (c7_led_analog { mode := some "analog", value := some 255 } 255 rfl rfl).1 (by decide)

/-- C5 witness: setting the threshold to the boundary value 1023 succeeds
and reports the new value. -/
theorem c5_config_lb_threshold_witness :
    handleConfigCommand { setting := some "lb_threshold", value := some 1023 } 512 =
      (1023, sendSuccess ("LB threshold set to " ++ toString (1023 : Int))) :=
  ((c5_config_lb_threshold.1 { setting := some "lb_threshold", value := some 1023 }
      512 1023 rfl rfl).1 (by decide))

/-- C8: for a successfully decoded JSON command the router reads `action`
as a string (absent → empty, per the JSON library contract the dispatcher
relies on), dispatches by exact match to the five handlers, and answers any
other action string — the empty default included — with exactly
`Unknown action: <action>`. -/
theorem c8_action_router (d : Doc) (env : SensorEnv) (t : Int) (a : String)
    (ha : a = d.action.getD "") :
    (a = "rgb" → processCommand (.doc d) env t =
       (t, (handleRgbCommand d).1, .json (handleRgbCommand d).2)) ∧
    (a = "led" → processCommand (.doc d) env t =
       (t, (handleLedCommand d).1, .json (handleLedCommand d).2)) ∧
    (a = "relay" → processCommand (.doc d) env t =
       (t, (handleRelayCommand d).1, .json (handleRelayCommand d).2)) ∧
    (a = "read" → processCommand (.doc d) env t =
       (t, [], .json (handleReadCommand d env t))) ∧
    (a = "config" → processCommand (.doc d) env t =
       ((handleConfigCommand d t).1, [], .json (handleConfigCommand d t).2)) ∧
    (a ≠ "rgb" → a ≠ "led" → a ≠ "relay" → a ≠ "read" → a ≠ "config" →
       processCommand (.doc d) env t =
         (t, [], .json (sendError ("Unknown action: " ++ a)))) := by
  subst ha
  refine ⟨fun h => ?_, fun h => ?_, fun h => ?_, fun h => ?_, fun h => ?_,
    fun h1 h2 h3 h4 h5 => ?_⟩ <;>
    simp_all [processCommand]

/-- C8 witness: an absent action field reads as the empty string and is
answered with the unknown-action error. -/
theorem c8_action_router_witness :
    processCommand (.doc {}) {} 512 =
      (512, [], .json (sendError ("Unknown action: " ++ ""))) :=
  (c8_action_router {} {} 512 "" rfl).2.2.2.2.2
    (by decide) (by decide) (by decide) (by decide) (by decide)

/-- C9: a read command whose sensor field (default empty) is none of `temp`,
`lb`, `rs` is answered with exactly `Invalid sensor. Use: lb, rs` — a message
that omits `temp` even though sensor `temp` is handled: with the LM75
acknowledging, a successful read yields the structured temperature response,
and with it absent the dedicated not-responding error, never the
invalid-sensor error. -/
theorem c9_read_invalid_sensor :
    (∀ (d : Doc) (env : SensorEnv) (t : Int),
       d.sensor.getD "" ≠ "temp" → d.sensor.getD "" ≠ "lb" → d.sensor.getD "" ≠ "rs" →
       handleReadCommand d env t = sendError "Invalid sensor. Use: lb, rs") ∧
    (∀ (d : Doc) (env : SensorEnv) (t : Int) (q : ℚ),
       d.sensor = some "temp" → env.lm75Present = true →
       readLm75Temperature env.lm75 = some q →
       handleReadCommand d env t =
         [("status", .s "success"), ("sensor", .s "temp"), ("celsius", .q q),
          ("resolution", .s "0.5"), ("address", .s "0x48")]) ∧
    (∀ (d : Doc) (env : SensorEnv) (t : Int),
       d.sensor = some "temp" → env.lm75Present = false →
       handleReadCommand d env t = sendError "LM75 not responding at 0x48") := by
  refine ⟨fun d env t h1 h2 h3 => ?_, fun d env t q hs hp hr => ?_, fun d env t hs hp => ?_⟩
  · simp only [handleReadCommand]
    rw [if_neg h1, if_neg h2, if_neg h3]
  · simp [handleReadCommand, hs, hp, hr]
  · simp [handleReadCommand, hs, hp]

/-- C9 witness: sensor `"dht"` is rejected with the message that names only
`lb` and `rs`, and sensor `"temp"` with an acknowledged LM75 and register
bytes 0x01/0x90 is answered with the temperature response (1.5 °C). -/
theorem c9_read_invalid_sensor_witness :
    handleReadCommand { sensor := some "dht" } {} 512 =
        sendError "Invalid sensor. Use: lb, rs" ∧
    handleReadCommand { sensor := some "temp" }
        { lm75Present := true, lm75 := .ok 1 144 } 512 =
      [("status", .s "success"), ("sensor", .s "temp"), ("celsius", .q (3 / 2)),
       ("resolution", .s "0.5"), ("address", .s "0x48")] :=
  ⟨c9_read_invalid_sensor.1 { sensor := some "dht" } {} 512
      (by decide) (by decide) (by decide),
   c9_read_invalid_sensor.2.1 { sensor := some "temp" }
      { lm75Present := true, lm75 := .ok 1 144 } 512 (3 / 2) rfl rfl
      (by simp only [readLm75Temperature,
            show toSigned16 (1 % 256 * 256 + 144 % 256) / 128 = 3 from by decide]
          norm_num)⟩

/-- C10: in any reachable process state the threshold is within 0–1023, so a
config command with setting `lb_threshold` and no value field always
succeeds — the value defaults to the current threshold, which passes the
range check — leaving the threshold unchanged and reporting it: an
idempotent read-back. -/
theorem c10_config_value_default_readback (t : Int) (h : ReachableThreshold t)
    (d : Doc) (hset : d.setting = some "lb_threshold") (hval : d.value = none) :
    handleConfigCommand d t = (t, sendSuccess ("LB threshold set to " ++ toString t)) := by
  have hb := reachableThreshold_bounds t h
  simp only [handleConfigCommand, hset, hval, Option.getD_some, Option.getD_none]
  rw [if_pos trivial, if_pos ⟨hb.1, hb.2⟩]

/-- C10 witness: at the boot threshold 512, a value-less `lb_threshold`
config succeeds and reads back 512. -/
theorem c10_config_value_default_readback_witness :
    handleConfigCommand { setting := some "lb_threshold" } 512 =
      (512, sendSuccess ("LB threshold set to " ++ toString (512 : Int))) :=
  c10_config_value_default_readback 512 .boot { setting := some "lb_threshold" } rfl rfl

/-- C4: a read command with sensor `lb` and mode `digital` reports value 1
exactly when the raw analog reading strictly exceeds the current threshold
(so raw equal to the threshold reports 0), in a response carrying status,
sensor, mode, the 0/1 value, the current threshold and the raw reading; and
a successful `lb_threshold` config sets the threading threshold to the new
value, which every later command that does not route to the config handler
leaves untouched — so it is the threshold used by every subsequent such
read. -/
theorem c4_read_lb_digital :
    (∀ (d : Doc) (env : SensorEnv) (t : Int),
       d.sensor = some "lb" → d.mode = some "digital" →
       handleReadCommand d env t =
         [("status", .s "success"), ("sensor", .s "lb"), ("mode", .s "digital"),
          ("value", .i (if env.lbRaw > t then 1 else 0)), ("threshold", .i t),
          ("raw_value", .i env.lbRaw)] ∧
       ((if env.lbRaw > t then (1 : Int) else 0) = 1 ↔ env.lbRaw > t) ∧
       (env.lbRaw = t → (if env.lbRaw > t then (1 : Int) else 0) = 0)) ∧
    (∀ (d : Doc) (env : SensorEnv) (t v : Int),
       d.action = some "config" → d.setting = some "lb_threshold" → d.value = some v →
       0 ≤ v → v ≤ 1023 →
       (processCommand (.doc d) env t).1 = v ∧
       ∀ rest : List (Input × SensorEnv),
         (∀ p ∈ rest, isConfigInput p.1 = false) →
         runThreshold rest (processCommand (.doc d) env t).1 = v) := by
  constructor
  · intro d env t hs hm
    refine ⟨?_, ?_, fun he => ?_⟩
    · by_cases hgt : env.lbRaw > t <;> simp [handleReadCommand, hs, hm, hgt]
    · constructor
      · intro h1
        by_contra hgt
        rw [if_neg hgt] at h1
        exact absurd h1 (by decide)
      · intro hgt
        rw [if_pos hgt]
    · rw [if_neg (by omega)]
  · intro d env t v ha hset hval hv0 hv1
    have hfst : (processCommand (.doc d) env t).1 = v := by
      simp [processCommand, ha, handleConfigCommand, hset, hval]
      rw [if_pos (show 0 <= v /\ v <= 1023 from ⟨hv0, hv1⟩)]
    refine ⟨hfst, fun rest hrest => ?_⟩
    rw [hfst]
    exact runThreshold_eq_of_not_config rest v hrest

/-- C4 witness: with threshold 512 a raw reading of 512 classifies as 0 and
the response reports threshold and raw value; a config to 600 followed by a
non-config command leaves the threshold at 600. -/
theorem c4_read_lb_digital_witness :
    handleReadCommand { sensor := some "lb", mode := some "digital" }
        { lbRaw := 512 } 512 =
      [("status", .s "success"), ("sensor", .s "lb"), ("mode", .s "digital"),
       ("value", .i (if (512 : Int) > 512 then 1 else 0)), ("threshold", .i 512),
       ("raw_value", .i 512)] ∧
    runThreshold [(.doc { action := some "read", sensor := some "lb" }, {})]
        (processCommand
          (.doc { action := some "config", setting := some "lb_threshold",
                  value := some 600 }) {} 512).1 = 600 :=
  ⟨(c4_read_lb_digital.1 { sensor := some "lb", mode := some "digital" }
      { lbRaw := 512 } 512 rfl rfl).1,
   (c4_read_lb_digital.2
      { action := some "config", setting := some "lb_threshold", value := some 600 }
      {} 512 600 rfl rfl rfl (by decide) (by decide)).2
     [(.doc { action := some "read", sensor := some "lb" }, {})]
     (by intro p hp; simp at hp; rw [hp]; decide)⟩

/-- C1: an rgb command with mode `range` on strip 1 or 2 (start defaulting
to 0, end to the last pixel index 77) is accepted exactly when
`start ≥ 0 ∧ end < 78 ∧ start ≤ end`; on acceptance every pixel of the
addressed strip with index in `[start, end]` holds the commanded color,
every other pixel of that strip and every pixel of the other strip keeps its
previous color, and the success message reports the range; otherwise the
response is exactly `Invalid pixel range` and no hardware call is made. -/
theorem c1_rgb_range (d : Doc) (st : Strips) (sid : Nat) (start e : Int)
    (hm : d.mode = some "range")
    (hstrip : d.strip.getD 0 = 1 ∨ d.strip.getD 0 = 2)
    (hsid : sid = if d.strip.getD 0 = 1 then 1 else 2)
    (hstart : start = d.start.getD 0)
    (he : e = d.endIdx.getD 77) :
    (start ≥ 0 ∧ e < 78 ∧ start ≤ e →
       (handleRgbCommand d).2 = sendSuccess ("Pixels " ++ toString start ++ "-" ++
           toString e ++ " on strip " ++ toString (d.strip.getD 0) ++ " set to RGB(" ++
           toString (d.r.getD 0) ++ "," ++ toString (d.g.getD 0) ++ "," ++
           toString (d.b.getD 0) ++ ")") ∧
       (∀ j : Int, start ≤ j → j ≤ e →
          (applyEvents st (handleRgbCommand d).1).pix sid j =
            Color (d.r.getD 0) (d.g.getD 0) (d.b.getD 0)) ∧
       (∀ j : Int, ¬(start ≤ j ∧ j ≤ e) →
          (applyEvents st (handleRgbCommand d).1).pix sid j = st.pix sid j) ∧
       (∀ (sid2 : Nat) (j : Int), sid2 = 1 ∨ sid2 = 2 → sid2 ≠ sid →
          (applyEvents st (handleRgbCommand d).1).pix sid2 j = st.pix sid2 j)) ∧
    (¬(start ≥ 0 ∧ e < 78 ∧ start ≤ e) →
       handleRgbCommand d = ([], sendError "Invalid pixel range")) := by
  have hsid12 : sid = 1 ∨ sid = 2 := by
    rcases hstrip with h1 | h1 <;> rw [hsid, h1] <;> norm_num
  have hcmd : handleRgbCommand d =
      (if start ≥ 0 ∧ e < 78 ∧ start ≤ e then
         (rangeEvents sid start e (Color (d.r.getD 0) (d.g.getD 0) (d.b.getD 0)) ++
            [HwEvent.showStrip sid],
          sendSuccess ("Pixels " ++ toString start ++ "-" ++ toString e ++ " on strip " ++
            toString (d.strip.getD 0) ++ " set to RGB(" ++ toString (d.r.getD 0) ++ "," ++
            toString (d.g.getD 0) ++ "," ++ toString (d.b.getD 0) ++ ")"))
       else ([], sendError "Invalid pixel range")) := by
    subst hsid hstart he
    rcases hstrip with h1 | h1 <;>
      simp [handleRgbCommand, h1, hm, NUM_LEDS_RGB_1, NUM_LEDS_RGB_2]
  constructor
  · intro hacc
    have hev : (handleRgbCommand d).1 =
        rangeEvents sid start e (Color (d.r.getD 0) (d.g.getD 0) (d.b.getD 0)) ++
          [HwEvent.showStrip sid] := by
      rw [hcmd, if_pos hacc]
    have hresp : (handleRgbCommand d).2 =
        sendSuccess ("Pixels " ++ toString start ++ "-" ++ toString e ++ " on strip " ++
          toString (d.strip.getD 0) ++ " set to RGB(" ++ toString (d.r.getD 0) ++ "," ++
          toString (d.g.getD 0) ++ "," ++ toString (d.b.getD 0) ++ ")") := by
      rw [hcmd, if_pos hacc]
    refine ⟨hresp, fun j hj1 hj2 => ?_, fun j hj => ?_, fun sid2 j hs2 hne => ?_⟩
    · rw [hev, applyEvents_snoc_showStrip, pix_rangeEvents hsid12 hsid12,
        if_pos ⟨rfl, hj1, hj2⟩]
    · rw [hev, applyEvents_snoc_showStrip, pix_rangeEvents hsid12 hsid12,
        if_neg (fun hh => hj ⟨hh.2.1, hh.2.2⟩)]
    · rw [hev, applyEvents_snoc_showStrip, pix_rangeEvents hsid12 hs2,
        if_neg (fun hh => hne hh.1)]
  · intro hrej
    rw [hcmd, if_neg hrej]

/-- A concrete device state for witnesses: both strips dark, LED and relays
off. -/
def exStrips : Strips :=
  { strip1 := fun _ => 0, strip2 := fun _ => 0, led := .digital false,
    relay1 := false, relay2 := false }

/-- A concrete accepted range command for the C1 witness: strip 1, pixels
2 to 4, red 10. -/
def exRangeDoc : Doc :=
  { strip := some 1, mode := some "range", start := some 2, endIdx := some 4,
    r := some 10 }

/-- C1 witness: after the accepted range command, an interior pixel holds
the commanded color and a pixel outside the range is untouched. -/
theorem c1_rgb_range_witness :
    (applyEvents exStrips (handleRgbCommand exRangeDoc).1).pix 1 3 = Color 10 0 0 ∧
    (applyEvents exStrips (handleRgbCommand exRangeDoc).1).pix 1 5 = exStrips.pix 1 5 :=
  have h := c1_rgb_range exRangeDoc exStrips 1 2 4 rfl (Or.inl (by decide))
    (by decide) (by decide) (by decide)
  ⟨(h.1 (by decide)).2.1 3 (by decide) (by decide),
   (h.1 (by decide)).2.2.1 5 (by decide)⟩

end D1Lite
